import Mathlib

set_option maxRecDepth 100000

/-!
Shallow embedding of the pricing/validation engine of `src/pages/Main/index.js`
(constant-product AMM quoting, slippage bounds, exchange-rate display maths,
and the buy/sell trade validators).

Amounts are ethers.js `BigNumber`s: arbitrary-precision signed integers whose
`div` truncates toward zero and faults on a zero divisor.  They are embedded as
`Int`, with `Int.tdiv` for `div`; a possible fault is an `Option`.  Values that
may be `undefined` in JavaScript (balances, allowances, reserves delivered by
asynchronous hooks) are embedded as `Option Int`; a `BigNumber` object is
always truthy in JavaScript, so a `x && ...` guard in the source tests only
presence, never zero-ness.
-/

namespace AlvinStore

/-- The `ethers.constants.MaxUint256` ceiling used by the source's guards. -/
def maxUint256 : Int := 2 ^ 256 - 1

/-- BigNumber division: truncation toward zero, `none` on a zero divisor
(ethers faults with a division-by-zero error there). -/
def bnDiv (a b : Int) : Option Int := if b = 0 then none else some (Int.tdiv a b)

/-- Slippage tolerance in bips (source line 32). -/
def ALLOWED_SLIPPAGE : Int := 200

/-- Result record of `calculateSlippageBounds`. -/
structure SlippageBounds where
  minimum : Int
  maximum : Int
deriving Repr, DecidableEq

/-- Source lines 34-42: `calculateSlippageBounds(value)`.  The divisor 10000 is
never zero, so this `div` cannot fault and the function is total. -/
def calculateSlippageBounds (value : Int) : SlippageBounds :=
  let offset := Int.tdiv (value * ALLOWED_SLIPPAGE) 10000
  let minimum := value - offset
  let maximum := value + offset
  { minimum := if minimum < 0 then 0 else minimum
    maximum := if maximum > maxUint256 then maxUint256 else maximum }

/-- Source lines 45-50: forward quote (`getInputPrice` mock).
`none` models the division-by-zero fault (possible when
`inputReserve * 1000 + inputAmount * 997 = 0`). -/
def calculateEtherTokenOutputFromInput (inputAmount inputReserve outputReserve : Int) :
    Option Int :=
  let inputAmountWithFee := inputAmount * 997
  let numerator := inputAmountWithFee * outputReserve
  let denominator := inputReserve * 1000 + inputAmountWithFee
  bnDiv numerator denominator

/-- Source lines 53-57: reverse quote (`getOutputPrice` mock).  Note there is
no guard: the subtraction `outputReserve - outputAmount` may be zero (fault in
`div`) or negative (signed truncated division), and the `+ 1` is unconditional. -/
def calculateEtherTokenInputFromOutput (outputAmount inputReserve outputReserve : Int) :
    Option Int :=
  let numerator := inputReserve * outputAmount * 1000
  let denominator := (outputReserve - outputAmount) * 997
  (bnDiv numerator denominator).map (· + 1)

/-- Outcome of `getExchangeRate`: the JavaScript function either returns a
`BigNumber`, returns `undefined` (guard not taken), or lets a division fault
escape. -/
inductive RateResult
  | crash
  | unavailable
  | rate (r : Int)
deriving Repr, DecidableEq

/-- Source lines 60-81: `getExchangeRate(inputValue, outputValue, invert)`.
Both decimals are the constant 18.  The guard
`inputValue && inputDecimals && outputValue && outputDecimals` tests only that
the two values are present (a `BigNumber` object is truthy even when it is
zero); inside the branch the value divided by may be zero, which faults. -/
def getExchangeRate (inputValue outputValue : Option Int) (invert : Bool) : RateResult :=
  match inputValue, outputValue with
  | some iv, some ov =>
    let factor : Int := 10 ^ 18
    if invert then
      match bnDiv (iv * factor) ov with
      | none => RateResult.crash
      | some q => RateResult.rate (Int.tdiv (q * 10 ^ 18) (10 ^ 18))
    else
      match bnDiv (ov * factor) iv with
      | none => RateResult.crash
      | some q => RateResult.rate (Int.tdiv (q * 10 ^ 18) (10 ^ 18))
  | _, _ => RateResult.unavailable

/-- Token symbols compared with `===` in the source (`TOKEN_SYMBOLS` keys). -/
inductive TokenSymbol
  | ETH
  | SOCKS
  | DAI
  | WXDAI
deriving Repr, DecidableEq

/-- Modelled from the spec: the `ERROR_CODES` table is imported from
`../../utils`, which is not part of the provided sources.  The spec's error
taxonomy lists each kind as a distinct tagged condition; the source
additionally references the distinct key `ERROR_CODES.INVALID_EXCHANGE` at the
`validateSell` catch, so the codes are embedded as distinct constructors. -/
inductive ErrorCode
  | INVALID_AMOUNT
  | INVALID_TRADE
  | INVALID_EXCHANGE
  | INSUFFICIENT_ETH_GAS
  | INSUFFICIENT_SELECTED_TOKEN_BALANCE
  | INSUFFICIENT_ALLOWANCE
deriving Repr, DecidableEq

/-- Source lines 83-148: `calculateAmount`.  A `throw` (guard failure) and an
arithmetic fault both surface as a JavaScript exception, embedded as `none`.
Reserves arrive from asynchronous hooks and may be `undefined`; using an
absent reserve raises a `TypeError`, also `none`, and a reserve is only
dereferenced in the branch that uses it. -/
def calculateAmount (inputTokenSymbol outputTokenSymbol : TokenSymbol)
    (SOCKSAmount : Int)
    (reserveSOCKSETH reserveSOCKSToken reserveSelectedTokenETH reserveSelectedTokenToken :
      Option Int) : Option Int :=
  -- eth to token - buy
  if inputTokenSymbol = TokenSymbol.ETH ∧ outputTokenSymbol = TokenSymbol.SOCKS then do
    let rSE ← reserveSOCKSETH
    let rST ← reserveSOCKSToken
    let amount ← calculateEtherTokenInputFromOutput SOCKSAmount rSE rST
    if amount ≤ 0 ∨ maxUint256 ≤ amount then none else some amount
  -- token to eth - sell
  else if inputTokenSymbol = TokenSymbol.SOCKS ∧ outputTokenSymbol = TokenSymbol.ETH then do
    let rSE ← reserveSOCKSETH
    let rST ← reserveSOCKSToken
    let amount ← calculateEtherTokenOutputFromInput SOCKSAmount rST rSE
    if amount ≤ 0 ∨ maxUint256 ≤ amount then none else some amount
  -- token to token - buy or sell
  else if outputTokenSymbol = TokenSymbol.SOCKS then do
    -- eth needed to buy x socks
    let rSE ← reserveSOCKSETH
    let rST ← reserveSOCKSToken
    let intermediateValue ← calculateEtherTokenInputFromOutput SOCKSAmount rSE rST
    if intermediateValue ≤ 0 ∨ maxUint256 ≤ intermediateValue then none
    else do
      -- tokens needed to buy x eth
      let rTT ← reserveSelectedTokenToken
      let rTE ← reserveSelectedTokenETH
      let amount ← calculateEtherTokenInputFromOutput intermediateValue rTT rTE
      if amount ≤ 0 ∨ maxUint256 ≤ amount then none else some amount
  else do
    -- eth gained from selling x socks
    let rSE ← reserveSOCKSETH
    let rST ← reserveSOCKSToken
    let intermediateValue ← calculateEtherTokenOutputFromInput SOCKSAmount rST rSE
    if intermediateValue ≤ 0 ∨ maxUint256 ≤ intermediateValue then none
    else do
      -- tokens yielded from selling x eth
      let rTE ← reserveSelectedTokenETH
      let rTT ← reserveSelectedTokenToken
      let amount ← calculateEtherTokenOutputFromInput intermediateValue rTE rTT
      if amount ≤ 0 ∨ maxUint256 ≤ amount then none else some amount

/-- External data a validation call closes over: balances, allowances and
reserves delivered by the hooks, any of which may still be `undefined`. -/
structure Context where
  selectedTokenSymbol : TokenSymbol
  reserveSOCKSETH : Option Int
  reserveSOCKSToken : Option Int
  reserveSelectedTokenETH : Option Int
  reserveSelectedTokenToken : Option Int
  balanceETH : Option Int
  balanceSOCKS : Option Int
  balanceSelectedToken : Option Int
  allowanceSOCKS : Option Int
  allowanceSelectedToken : Option Int
deriving Repr, DecidableEq

/-- The record `validateBuy` returns. -/
structure BuyQuote where
  inputValue : Int
  maximumInputValue : Int
  outputValue : Int
  error : Option ErrorCode
deriving Repr, DecidableEq

/-- The record `validateSell` returns. -/
structure SellQuote where
  inputValue : Int
  outputValue : Int
  minimumOutputValue : Int
  error : Option ErrorCode
deriving Repr, DecidableEq

/-- Outcome of a validator call: a returned quote, a thrown error carrying an
`ERROR_CODES` value, or an uncoded crash (e.g. a `TypeError` from
dereferencing an absent value). -/
inductive VResult (Q : Type)
  | ok (q : Q)
  | err (code : ErrorCode)
  | crash
deriving Repr, DecidableEq

/-- `ethers.utils.parseEther('.01')`, the minimum gas-asset balance. -/
def minGasBalance : Int := 10 ^ 16

/-- Source lines 275-353: `validateBuy`, from the already-parsed amount onward
(`ethers.utils.parseUnits` is external library code; its failure path sets
`INVALID_AMOUNT` before any of this runs).  A `calculateAmount` exception is
caught and re-thrown as `INVALID_TRADE`.  Each balance/allowance check is
guarded by presence (`balanceETH && ...` etc.), so an absent datum skips the
check; `maximum` is always a truthy `BigNumber`, so `maximum &&` never
filters.  Only the first error is kept (`if (!errorAccumulator)`). -/
def validateBuy (parsedValue : Int) (ctx : Context) : VResult BuyQuote :=
  match calculateAmount ctx.selectedTokenSymbol TokenSymbol.SOCKS parsedValue
      ctx.reserveSOCKSETH ctx.reserveSOCKSToken
      ctx.reserveSelectedTokenETH ctx.reserveSelectedTokenToken with
  | none => VResult.err ErrorCode.INVALID_TRADE
  | some requiredValueInSelectedToken =>
    let maximum := (calculateSlippageBounds requiredValueInSelectedToken).maximum
    let gasErr : Option ErrorCode :=
      match ctx.balanceETH with
      | some b => if b < minGasBalance then some ErrorCode.INSUFFICIENT_ETH_GAS else none
      | none => none
    let balErr : Option ErrorCode :=
      match ctx.balanceSelectedToken with
      | some b =>
        if b < maximum then some ErrorCode.INSUFFICIENT_SELECTED_TOKEN_BALANCE else none
      | none => none
    let allowErr : Option ErrorCode :=
      if ctx.selectedTokenSymbol ≠ TokenSymbol.ETH then
        match ctx.allowanceSelectedToken with
        | some a => if a < maximum then some ErrorCode.INSUFFICIENT_ALLOWANCE else none
        | none => none
      else none
    VResult.ok
      { inputValue := requiredValueInSelectedToken
        maximumInputValue := maximum
        outputValue := parsedValue
        error := gasErr <|> balErr <|> allowErr }

/-- Source lines 398-475: `validateSell`, from the already-parsed amount
onward.  A `calculateAmount` exception is caught and re-thrown as
`INVALID_EXCHANGE` (source line 422).  Unlike `validateBuy`, the three checks
dereference `balanceETH`, `balanceSOCKS` and `allowanceSOCKS` without a
presence guard, so an absent value raises a `TypeError` (`crash`). -/
def validateSell (parsedValue : Int) (ctx : Context) : VResult SellQuote :=
  match calculateAmount TokenSymbol.SOCKS ctx.selectedTokenSymbol parsedValue
      ctx.reserveSOCKSETH ctx.reserveSOCKSToken
      ctx.reserveSelectedTokenETH ctx.reserveSelectedTokenToken with
  | none => VResult.err ErrorCode.INVALID_EXCHANGE
  | some requiredValueInSelectedToken =>
    let minimum := (calculateSlippageBounds requiredValueInSelectedToken).minimum
    match ctx.balanceETH, ctx.balanceSOCKS, ctx.allowanceSOCKS with
    | some bETH, some bSOCKS, some aSOCKS =>
      let gasErr : Option ErrorCode :=
        if bETH < minGasBalance then some ErrorCode.INSUFFICIENT_ETH_GAS else none
      let balErr : Option ErrorCode :=
        if bSOCKS < parsedValue then
          some ErrorCode.INSUFFICIENT_SELECTED_TOKEN_BALANCE
        else none
      let allowErr : Option ErrorCode :=
        if aSOCKS < parsedValue then some ErrorCode.INSUFFICIENT_ALLOWANCE else none
      VResult.ok
        { inputValue := parsedValue
          outputValue := requiredValueInSelectedToken
          minimumOutputValue := minimum
          error := gasErr <|> balErr <|> allowErr }
    | _, _, _ => VResult.crash

/-- Spec-side formula for the reverse quote (spec §4.2, fee 30 bps):
`floor(inputReserve·outputAmount·10000 / ((outputReserve−outputAmount)·(10000−30))) + 1`.
Written from the spec's words, to be compared with
`calculateEtherTokenInputFromOutput`. -/
def quoteInputGivenOutputSpec (outputAmount inputReserve outputReserve : Int) : Int :=
  inputReserve * outputAmount * 10000 / ((outputReserve - outputAmount) * 9970) + 1

/-- Spec-side clamp into `[0, MAX_AMOUNT]` (spec §4.4). -/
def clampSpec (v : Int) : Int := min maxUint256 (max 0 v)

/-- Spec-side list of the buy-validator checks that fail, in the spec's fixed
order gas, balance, allowance.  Written from the spec's words, to be compared
with the single error surfaced by `validateBuy`. -/
def buyFailedChecksSpec (ctx : Context) (maximum : Int) : List ErrorCode :=
  (match ctx.balanceETH with
   | some b => if b < minGasBalance then [ErrorCode.INSUFFICIENT_ETH_GAS] else []
   | none => []) ++
  (match ctx.balanceSelectedToken with
   | some b => if b < maximum then [ErrorCode.INSUFFICIENT_SELECTED_TOKEN_BALANCE] else []
   | none => []) ++
  (if ctx.selectedTokenSymbol ≠ TokenSymbol.ETH then
    match ctx.allowanceSelectedToken with
    | some a => if a < maximum then [ErrorCode.INSUFFICIENT_ALLOWANCE] else []
    | none => []
  else [])

/-- Spec-side list of the sell-validator checks that fail, in the spec's fixed
order gas, balance, allowance, for present balances/allowance.  Written from
the spec's words, to be compared with the error surfaced by `validateSell`. -/
def sellFailedChecksSpec (parsedValue bETH bSOCKS aSOCKS : Int) : List ErrorCode :=
  (if bETH < minGasBalance then [ErrorCode.INSUFFICIENT_ETH_GAS] else []) ++
  (if bSOCKS < parsedValue then [ErrorCode.INSUFFICIENT_SELECTED_TOKEN_BALANCE] else []) ++
  (if aSOCKS < parsedValue then [ErrorCode.INSUFFICIENT_ALLOWANCE] else [])

/-- The first-`some` choice of three optional errors equals the head of the
concatenation of the corresponding (zero- or one-element) lists. -/
lemma orElse_eq_head_append (o1 o2 o3 : Option ErrorCode) :
    (o1 <|> o2 <|> o3) = (o1.toList ++ o2.toList ++ o3.toList).head? := by
  cases o1 <;> cases o2 <;> cases o3 <;> rfl

/-- C1: for `outputReserve > outputAmount ≥ 0` and `inputReserve ≥ 0`, the
reverse quote returns exactly
`floor(inputReserve·outputAmount·10000 / ((outputReserve−outputAmount)·9970)) + 1`,
with the `+1` applied unconditionally (it is part of the returned value even
when the floor division is exact). -/
theorem C1_reverse_quote_formula (outputAmount inputReserve outputReserve : Int)
    (h0 : 0 ≤ outputAmount) (h1 : outputAmount < outputReserve) (h2 : 0 ≤ inputReserve) :
    calculateEtherTokenInputFromOutput outputAmount inputReserve outputReserve =
      some (quoteInputGivenOutputSpec outputAmount inputReserve outputReserve) := by
  have hden : (0 : Int) < (outputReserve - outputAmount) * 997 := by
    have : (0 : Int) < outputReserve - outputAmount := by linarith
    positivity
  have hnum : (0 : Int) ≤ inputReserve * outputAmount * 1000 := by positivity
  have h10 : inputReserve * outputAmount * 10000 / ((outputReserve - outputAmount) * 9970) =
      inputReserve * outputAmount * 1000 / ((outputReserve - outputAmount) * 997) := by
    rw [show inputReserve * outputAmount * 10000 =
          10 * (inputReserve * outputAmount * 1000) by ring,
        show (outputReserve - outputAmount) * 9970 =
          10 * ((outputReserve - outputAmount) * 997) by ring]
    exact Int.mul_ediv_mul_of_pos _ _ (by norm_num)
  simp only [calculateEtherTokenInputFromOutput, quoteInputGivenOutputSpec, bnDiv]
  rw [if_neg hden.ne', Option.map_some', Int.tdiv_eq_ediv hnum hden.le, h10]

/-- C1 witness: the formula theorem applied at `outputAmount = 1`,
`inputReserve = 5`, `outputReserve = 3`. -/
theorem C1_witness :
    calculateEtherTokenInputFromOutput 1 5 3 = some (quoteInputGivenOutputSpec 1 5 3) :=
  C1_reverse_quote_formula 1 5 3 (by decide) (by decide) (by decide)

/-- C2 counterexample: at reserves `r_in = 3 > 0`, `r_out = 5 > 0` and input
`2` with `0 < 2 < 3`, the forward quote gives `1` and the reverse quote of
that output gives `1 < 2`, so the forward-then-reverse round trip
under-charges. -/
theorem C2_roundtrip_counterexample :
    calculateEtherTokenOutputFromInput 2 3 5 = some 1 ∧
    calculateEtherTokenInputFromOutput 1 3 5 = some 1 ∧ ¬ ((2 : Int) ≤ 1) := by
  decide

/-- C2 amended: the conservative direction that does hold is reverse then
forward: for `0 < y < r_out` and `0 < r_in`, quoting the input needed for `y`
and feeding it to the forward quote delivers at least `y` (the `+1` never
under-delivers the requested output). -/
theorem C2_reverse_then_forward_never_underdelivers (y rin rout : Int)
    (hy : 0 < y) (hyr : y < rout) (hrin : 0 < rin) :
    ∃ x z, calculateEtherTokenInputFromOutput y rin rout = some x ∧
      calculateEtherTokenOutputFromInput x rin rout = some z ∧ y ≤ z := by
  have hDpos : (0 : Int) < (rout - y) * 997 := by
    have : (0 : Int) < rout - y := by linarith
    positivity
  have hNnn : (0 : Int) ≤ rin * y * 1000 := by positivity
  set q := rin * y * 1000 / ((rout - y) * 997) with hq
  have hqnn : 0 ≤ q := Int.ediv_nonneg hNnn hDpos.le
  have hroutnn : (0 : Int) ≤ rout := by linarith
  have hden2 : (0 : Int) < rin * 1000 + (q + 1) * 997 := by omega
  have hznn : (0 : Int) ≤ (q + 1) * 997 * rout :=
    mul_nonneg (by omega) hroutnn
  have hx : calculateEtherTokenInputFromOutput y rin rout = some (q + 1) := by
    simp only [calculateEtherTokenInputFromOutput, bnDiv]
    rw [if_neg hDpos.ne', Option.map_some', Int.tdiv_eq_ediv hNnn hDpos.le]
  have hz : calculateEtherTokenOutputFromInput (q + 1) rin rout =
      some ((q + 1) * 997 * rout / (rin * 1000 + (q + 1) * 997)) := by
    simp only [calculateEtherTokenOutputFromInput, bnDiv]
    rw [if_neg hden2.ne', Int.tdiv_eq_ediv hznn hden2.le]
  refine ⟨q + 1, (q + 1) * 997 * rout / (rin * 1000 + (q + 1) * 997), hx, hz, ?_⟩
  rw [Int.le_ediv_iff_mul_le hden2]
  have hNx : rin * y * 1000 < (q + 1) * ((rout - y) * 997) := by
    have h := Int.lt_ediv_add_one_mul_self (rin * y * 1000) hDpos
    rw [← hq] at h
    exact h
  nlinarith [hNx]

/-- C2 witness for the amended statement: requesting output `1` at reserves
`r_in = 3`, `r_out = 5`. -/
theorem C2_witness :
    ∃ x z, calculateEtherTokenInputFromOutput 1 3 5 = some x ∧
      calculateEtherTokenOutputFromInput x 3 5 = some z ∧ (1 : Int) ≤ z :=
  C2_reverse_then_forward_never_underdelivers 1 3 5 (by decide) (by decide) (by decide)

/-- C3 counterexample: with `outputAmount = 2 ≥ outputReserve = 1` but
`inputReserve = 0`, the direct buy quote does not fail at all: the formula
evaluates to `0 + 1 = 1`, which passes the post-formula guard, so
`calculateAmount` returns `1` instead of failing with `InvalidTrade`. -/
theorem C3_no_guard_counterexample :
    calculateAmount TokenSymbol.ETH TokenSymbol.SOCKS 2 (some 0) (some 1) none none =
      some 1 := by
  decide

/-- C3 amended: there is no pre-formula guard; for `outputAmount ≥
outputReserve ≥ 0` the direct buy path fails only when `inputReserve ≥ 1`,
and it does so as a consequence of evaluating the formula (a division-by-zero
fault at `outputAmount = outputReserve`, otherwise a non-positive result
rejected by the post-formula guard), which `validateBuy` then surfaces as
`INVALID_TRADE`. -/
theorem C3_reverse_quote_at_capacity_fails (oa ir orv : Int)
    (r3 r4 bE bS bSel aS aSel : Option Int)
    (h0 : 0 ≤ orv) (h1 : orv ≤ oa) (h2 : 1 ≤ ir) :
    calculateAmount TokenSymbol.ETH TokenSymbol.SOCKS oa (some ir) (some orv) r3 r4 = none ∧
    validateBuy oa
      { selectedTokenSymbol := TokenSymbol.ETH
        reserveSOCKSETH := some ir, reserveSOCKSToken := some orv
        reserveSelectedTokenETH := r3, reserveSelectedTokenToken := r4
        balanceETH := bE, balanceSOCKS := bS, balanceSelectedToken := bSel
        allowanceSOCKS := aS, allowanceSelectedToken := aSel } =
      VResult.err ErrorCode.INVALID_TRADE := by
  have hcalc :
      calculateAmount TokenSymbol.ETH TokenSymbol.SOCKS oa (some ir) (some orv) r3 r4 =
        none := by
    rcases eq_or_lt_of_le h1 with heq | hlt
    · have hquote : calculateEtherTokenInputFromOutput oa ir orv = none := by
        simp only [calculateEtherTokenInputFromOutput, bnDiv]
        rw [if_pos (by rw [heq]; ring)]
        rfl
      simp [calculateAmount, hquote]
    · have hM : (0 : Int) < (oa - orv) * 997 := by
        have : (0 : Int) < oa - orv := by linarith
        positivity
      have hNnn : (0 : Int) ≤ ir * oa * 1000 :=
        mul_nonneg (mul_nonneg (by linarith) (by linarith)) (by norm_num)
      have hquote : calculateEtherTokenInputFromOutput oa ir orv =
          some (-(ir * oa * 1000 / ((oa - orv) * 997)) + 1) := by
        simp only [calculateEtherTokenInputFromOutput, bnDiv]
        have hden : (orv - oa) * 997 ≠ 0 := by
          have : (orv - oa) * 997 < 0 := by linarith
          exact this.ne
        rw [if_neg hden, Option.map_some']
        have hflip : (orv - oa) * 997 = -((oa - orv) * 997) := by ring
        rw [hflip, Int.tdiv_neg, Int.tdiv_eq_ediv hNnn hM.le]
      have hMN : (oa - orv) * 997 ≤ ir * oa * 1000 := by nlinarith
      have hk : 1 ≤ ir * oa * 1000 / ((oa - orv) * 997) := by
        rw [Int.le_ediv_iff_mul_le hM, one_mul]
        exact hMN
      have hle : -(ir * oa * 1000 / ((oa - orv) * 997)) + 1 ≤ 0 := by omega
      simp [calculateAmount, hquote, hle]
  exact ⟨hcalc, by simp [validateBuy, hcalc]⟩

/-- C3 witness for the amended statement: `outputAmount = 3`,
`inputReserve = 2`, `outputReserve = 1`. -/
theorem C3_witness :
    calculateAmount TokenSymbol.ETH TokenSymbol.SOCKS 3 (some 2) (some 1) none none = none ∧
    validateBuy 3
      { selectedTokenSymbol := TokenSymbol.ETH
        reserveSOCKSETH := some 2, reserveSOCKSToken := some 1
        reserveSelectedTokenETH := none, reserveSelectedTokenToken := none
        balanceETH := none, balanceSOCKS := none, balanceSelectedToken := none
        allowanceSOCKS := none, allowanceSelectedToken := none } =
      VResult.err ErrorCode.INVALID_TRADE :=
  C3_reverse_quote_at_capacity_fails 3 2 1 none none none none none none none
    (by decide) (by decide) (by decide)

/-- C4 counterexample: a sell whose route resolution fails (both SOCKS
reserves zero) aborts with the `INVALID_EXCHANGE` error kind, which is a
different `ERROR_CODES` key than the `INVALID_TRADE` kind the claim states
(`validateSell`, source line 422, sets `ERROR_CODES.INVALID_EXCHANGE`). -/
theorem C4_invalid_exchange_counterexample :
    validateSell 1
      { selectedTokenSymbol := TokenSymbol.ETH
        reserveSOCKSETH := some 0, reserveSOCKSToken := some 0
        reserveSelectedTokenETH := none, reserveSelectedTokenToken := none
        balanceETH := none, balanceSOCKS := none, balanceSelectedToken := none
        allowanceSOCKS := none, allowanceSelectedToken := none } =
      VResult.err ErrorCode.INVALID_EXCHANGE ∧
    (VResult.err ErrorCode.INVALID_EXCHANGE : VResult SellQuote) ≠
      VResult.err ErrorCode.INVALID_TRADE := by
  decide

/-- C4 amended: whenever route resolution fails for a sell (for any reason:
degenerate quote, zero reserve, absent reserve, or out-of-range intermediate
result), `validateSell` aborts immediately with the `INVALID_EXCHANGE` error
kind, returning no quote and performing no balance/allowance checks (in
particular it cannot crash on absent balances, since it aborts first). -/
theorem C4_route_failure_aborts_sell (p : Int) (ctx : Context)
    (h : calculateAmount TokenSymbol.SOCKS ctx.selectedTokenSymbol p
        ctx.reserveSOCKSETH ctx.reserveSOCKSToken
        ctx.reserveSelectedTokenETH ctx.reserveSelectedTokenToken = none) :
    validateSell p ctx = VResult.err ErrorCode.INVALID_EXCHANGE := by
  simp [validateSell, h]

/-- C4 witness: selling `2` against an exhausted pool (zero reserves) with all
balances absent still aborts with `INVALID_EXCHANGE` and never reaches the
balance checks. -/
theorem C4_witness :
    validateSell 2
      { selectedTokenSymbol := TokenSymbol.ETH
        reserveSOCKSETH := some 0, reserveSOCKSToken := some 0
        reserveSelectedTokenETH := none, reserveSelectedTokenToken := none
        balanceETH := none, balanceSOCKS := none, balanceSelectedToken := none
        allowanceSOCKS := none, allowanceSelectedToken := none } =
      VResult.err ErrorCode.INVALID_EXCHANGE :=
  C4_route_failure_aborts_sell 2 _ (by decide)

/-- C5 counterexample: a present but zero reserve in the divisor position is
not returned as "unavailable": the guard tests only presence (a `BigNumber`
object is truthy even at zero), so the division faults and the function
crashes. -/
theorem C5_zero_reserve_counterexample :
    getExchangeRate (some 0) (some 5) false = RateResult.crash ∧
    RateResult.crash ≠ RateResult.unavailable := by
  decide

/-- C5 amended: when either reserve is absent the function returns the
explicit "unavailable" result (`undefined`), but a present zero reserve in
the divisor position (the input reserve when not inverted, the output reserve
when inverted) crashes with a division-by-zero fault. -/
theorem C5_exchange_rate_absent_vs_zero (v : Int) (ov : Option Int) (b : Bool) :
    getExchangeRate none ov b = RateResult.unavailable ∧
    getExchangeRate (some v) none b = RateResult.unavailable ∧
    getExchangeRate (some 0) (some v) false = RateResult.crash ∧
    getExchangeRate (some v) (some 0) true = RateResult.crash := by
  refine ⟨?_, ?_, ?_, ?_⟩ <;> cases b <;> cases ov <;>
    simp [getExchangeRate, bnDiv]

/-- C9: for `0 ≤ outputAmount < outputReserve` and `inputReserve ≥ 0`, the
reverse quote succeeds and its unconditional `+1` makes the result at least
`1`, so in the direct buy path of `calculateAmount` the non-positive-amount
half of the guard is unreachable: the only remaining failure mode is the
`MaxUint256` ceiling. -/
theorem C9_reverse_quote_positive (oa ir orv : Int) (r3 r4 : Option Int)
    (h0 : 0 ≤ oa) (h1 : oa < orv) (h2 : 0 ≤ ir) :
    ∃ v, calculateEtherTokenInputFromOutput oa ir orv = some v ∧ 1 ≤ v ∧
      calculateAmount TokenSymbol.ETH TokenSymbol.SOCKS oa (some ir) (some orv) r3 r4 =
        (if maxUint256 ≤ v then none else some v) := by
  have hDpos : (0 : Int) < (orv - oa) * 997 := by
    have : (0 : Int) < orv - oa := by linarith
    positivity
  have hNnn : (0 : Int) ≤ ir * oa * 1000 := by positivity
  set q := ir * oa * 1000 / ((orv - oa) * 997) with hq
  have hqnn : 0 ≤ q := Int.ediv_nonneg hNnn hDpos.le
  have hv : calculateEtherTokenInputFromOutput oa ir orv = some (q + 1) := by
    simp only [calculateEtherTokenInputFromOutput, bnDiv]
    rw [if_neg hDpos.ne', Option.map_some', Int.tdiv_eq_ediv hNnn hDpos.le]
  have hnotle : ¬ (q + 1 ≤ 0) := by omega
  refine ⟨q + 1, hv, by omega, ?_⟩
  by_cases hmax : maxUint256 ≤ q + 1
  · simp [calculateAmount, hv, hmax]
  · simp [calculateAmount, hv, hmax, hnotle]

/-- C9 witness: requesting output `1` against reserves `(inputReserve = 4,
outputReserve = 3)`. -/
theorem C9_witness :
    ∃ v, calculateEtherTokenInputFromOutput 1 4 3 = some v ∧ 1 ≤ v ∧
      calculateAmount TokenSymbol.ETH TokenSymbol.SOCKS 1 (some 4) (some 3) none none =
        (if maxUint256 ≤ v then none else some v) :=
  C9_reverse_quote_positive 1 4 3 none none (by decide) (by decide) (by decide)

/-- C7: the slippage bounder is total (a plain function, its one division is
by the constant 10000), and for `0 ≤ x ≤ MaxUint256` at the fixed 200-bps
tolerance it brackets `x` and agrees with the spec's clamp formulas
`clamp(x ∓ floor(x·200/10000), 0, MAX_AMOUNT)`. -/
theorem C7_slippage_band (x : Int) (h0 : 0 ≤ x) (h1 : x ≤ maxUint256) :
    (calculateSlippageBounds x).minimum ≤ x ∧ x ≤ (calculateSlippageBounds x).maximum ∧
    (calculateSlippageBounds x).minimum = clampSpec (x - x * 200 / 10000) ∧
    (calculateSlippageBounds x).maximum = clampSpec (x + x * 200 / 10000) := by
  have hoff : Int.tdiv (x * ALLOWED_SLIPPAGE) 10000 = x * 200 / 10000 := by
    rw [show ALLOWED_SLIPPAGE = (200 : Int) from rfl]
    exact Int.tdiv_eq_ediv (by positivity) (by norm_num)
  have ho0 : 0 ≤ x * 200 / 10000 := Int.ediv_nonneg (by positivity) (by norm_num)
  have hox : x * 200 / 10000 ≤ x := by
    calc x * 200 / 10000 ≤ x * 10000 / 10000 :=
          Int.ediv_le_ediv (by norm_num) (by nlinarith)
      _ = x := Int.mul_ediv_cancel x (by norm_num)
  have hmin : (calculateSlippageBounds x).minimum = x - x * 200 / 10000 := by
    simp only [calculateSlippageBounds, hoff]
    rw [if_neg (by omega)]
  have hmax : (calculateSlippageBounds x).maximum =
      (if x + x * 200 / 10000 > maxUint256 then maxUint256 else x + x * 200 / 10000) := by
    simp only [calculateSlippageBounds, hoff]
  refine ⟨?_, ?_, ?_, ?_⟩
  · rw [hmin]; omega
  · rw [hmax]; split_ifs with hc <;> omega
  · rw [hmin]
    simp only [clampSpec]
    rw [max_eq_right (by omega), min_eq_right (by omega)]
  · rw [hmax]
    simp only [clampSpec]
    split_ifs with hc
    · rw [max_eq_right (by omega), min_eq_left (by omega)]
    · rw [max_eq_right (by omega), min_eq_right (by omega)]

/-- C7 witness: the band theorem applied at `x = 12345`. -/
theorem C7_witness :
    (calculateSlippageBounds 12345).minimum ≤ 12345 ∧
    (12345 : Int) ≤ (calculateSlippageBounds 12345).maximum ∧
    (calculateSlippageBounds 12345).minimum = clampSpec (12345 - 12345 * 200 / 10000) ∧
    (calculateSlippageBounds 12345).maximum = clampSpec (12345 + 12345 * 200 / 10000) :=
  C7_slippage_band 12345 (by decide) (by decide)

/-- C8: for fixed positive reserves the forward quote is monotonically
non-decreasing in the input amount: `a ≤ b` gives quoted output for `a` at
most the quoted output for `b`. -/
theorem C8_forward_quote_monotone (rin rout a b : Int) (hrin : 0 < rin) (hrout : 0 < rout)
    (ha : 0 ≤ a) (hab : a ≤ b) :
    ∃ ya yb, calculateEtherTokenOutputFromInput a rin rout = some ya ∧
      calculateEtherTokenOutputFromInput b rin rout = some yb ∧ ya ≤ yb := by
  have hb : 0 ≤ b := le_trans ha hab
  have hdena : (0 : Int) < rin * 1000 + a * 997 := by positivity
  have hdenb : (0 : Int) < rin * 1000 + b * 997 := by positivity
  have hya : calculateEtherTokenOutputFromInput a rin rout =
      some (a * 997 * rout / (rin * 1000 + a * 997)) := by
    simp only [calculateEtherTokenOutputFromInput, bnDiv]
    rw [if_neg hdena.ne', Int.tdiv_eq_ediv (by positivity) hdena.le]
  have hyb : calculateEtherTokenOutputFromInput b rin rout =
      some (b * 997 * rout / (rin * 1000 + b * 997)) := by
    simp only [calculateEtherTokenOutputFromInput, bnDiv]
    rw [if_neg hdenb.ne', Int.tdiv_eq_ediv (by positivity) hdenb.le]
  refine ⟨_, _, hya, hyb, ?_⟩
  rw [Int.le_ediv_iff_mul_le hdenb]
  have hfloor : a * 997 * rout / (rin * 1000 + a * 997) * (rin * 1000 + a * 997) ≤
      a * 997 * rout := Int.ediv_mul_le _ hdena.ne'
  have hcross : (a * 997 * rout) * (rin * 1000 + b * 997) ≤
      (b * 997 * rout) * (rin * 1000 + a * 997) := by
    nlinarith [mul_nonneg (mul_nonneg hrout.le hrin.le) (sub_nonneg.2 hab)]
  have hstep : a * 997 * rout / (rin * 1000 + a * 997) * (rin * 1000 + b * 997) *
      (rin * 1000 + a * 997) ≤ (b * 997 * rout) * (rin * 1000 + a * 997) := by
    calc a * 997 * rout / (rin * 1000 + a * 997) * (rin * 1000 + b * 997) *
          (rin * 1000 + a * 997)
        = a * 997 * rout / (rin * 1000 + a * 997) * (rin * 1000 + a * 997) *
          (rin * 1000 + b * 997) := by ring
      _ ≤ (a * 997 * rout) * (rin * 1000 + b * 997) :=
          mul_le_mul_of_nonneg_right hfloor hdenb.le
      _ ≤ (b * 997 * rout) * (rin * 1000 + a * 997) := hcross
  exact le_of_mul_le_mul_right hstep hdena

/-- C8 witness: monotonicity at reserves `(7, 9)` for inputs `2 ≤ 5`. -/
theorem C8_witness :
    ∃ ya yb, calculateEtherTokenOutputFromInput 2 7 9 = some ya ∧
      calculateEtherTokenOutputFromInput 5 7 9 = some yb ∧ ya ≤ yb :=
  C8_forward_quote_monotone 7 9 2 5 (by decide) (by decide) (by decide) (by decide)

/-- C6 counterexample: two buy contexts, one failing only the gas check and
one failing both the gas and the token-balance checks, produce identical
results, so the second (balance) error is not available to the caller in any
form — only the first-encountered error is retained, refuting "all
accumulated errors remain available". -/
theorem C6_discarded_error_counterexample :
    validateBuy 1
      { selectedTokenSymbol := TokenSymbol.ETH
        reserveSOCKSETH := some 1, reserveSOCKSToken := some 2
        reserveSelectedTokenETH := none, reserveSelectedTokenToken := none
        balanceETH := some 0, balanceSOCKS := none, balanceSelectedToken := some 0
        allowanceSOCKS := none, allowanceSelectedToken := none } =
    validateBuy 1
      { selectedTokenSymbol := TokenSymbol.ETH
        reserveSOCKSETH := some 1, reserveSOCKSToken := some 2
        reserveSelectedTokenETH := none, reserveSelectedTokenToken := none
        balanceETH := some 0, balanceSOCKS := none, balanceSelectedToken := some 5
        allowanceSOCKS := none, allowanceSelectedToken := none } ∧
    validateBuy 1
      { selectedTokenSymbol := TokenSymbol.ETH
        reserveSOCKSETH := some 1, reserveSOCKSToken := some 2
        reserveSelectedTokenETH := none, reserveSelectedTokenToken := none
        balanceETH := some 0, balanceSOCKS := none, balanceSelectedToken := some 0
        allowanceSOCKS := none, allowanceSelectedToken := none } =
      VResult.ok { inputValue := 2, maximumInputValue := 2, outputValue := 1,
                   error := some ErrorCode.INSUFFICIENT_ETH_GAS } := by
  decide

/-- C6 amended: when the amount parses and the route resolves, the returned
quote always carries the exact computed input and output amounts even when
gas/balance/allowance conditions fail, and the single surfaced error is the
first failing check in the fixed order gas → balance → allowance; errors
after the first are discarded and are not recoverable from the returned
quote.  (For the sell side the checks dereference the balances, so they are
taken as present here; the absent case is C10.) -/
theorem C6_exact_amounts_and_first_error (p v ps vs bETH bSOCKS aSOCKS : Int)
    (ctx ctxs : Context)
    (hbuy : calculateAmount ctx.selectedTokenSymbol TokenSymbol.SOCKS p
        ctx.reserveSOCKSETH ctx.reserveSOCKSToken
        ctx.reserveSelectedTokenETH ctx.reserveSelectedTokenToken = some v)
    (hsell : calculateAmount TokenSymbol.SOCKS ctxs.selectedTokenSymbol ps
        ctxs.reserveSOCKSETH ctxs.reserveSOCKSToken
        ctxs.reserveSelectedTokenETH ctxs.reserveSelectedTokenToken = some vs)
    (hbe : ctxs.balanceETH = some bETH) (hbs : ctxs.balanceSOCKS = some bSOCKS)
    (hal : ctxs.allowanceSOCKS = some aSOCKS) :
    validateBuy p ctx = VResult.ok
      { inputValue := v
        maximumInputValue := (calculateSlippageBounds v).maximum
        outputValue := p
        error := (buyFailedChecksSpec ctx (calculateSlippageBounds v).maximum).head? } ∧
    validateSell ps ctxs = VResult.ok
      { inputValue := ps
        outputValue := vs
        minimumOutputValue := (calculateSlippageBounds vs).minimum
        error := (sellFailedChecksSpec ps bETH bSOCKS aSOCKS).head? } := by
  constructor
  · rcases he : ctx.balanceETH with _ | b1 <;>
    rcases hb2 : ctx.balanceSelectedToken with _ | b2 <;>
    rcases ha1 : ctx.allowanceSelectedToken with _ | a1 <;>
      simp only [validateBuy, hbuy, he, hb2, ha1, buyFailedChecksSpec,
        orElse_eq_head_append] <;>
      split_ifs <;> rfl
  · simp only [validateSell, hsell, hbe, hbs, hal, sellFailedChecksSpec,
      orElse_eq_head_append]
    split_ifs <;> rfl

/-- C6 witness: a buy failing the gas and balance checks surfaces the gas
error with the exact amounts; a sell with balance below the sell amount
surfaces the balance error with the exact amounts. -/
theorem C6_witness :
    validateBuy 1
      { selectedTokenSymbol := TokenSymbol.ETH
        reserveSOCKSETH := some 1, reserveSOCKSToken := some 2
        reserveSelectedTokenETH := none, reserveSelectedTokenToken := none
        balanceETH := some 0, balanceSOCKS := none, balanceSelectedToken := some 0
        allowanceSOCKS := none, allowanceSelectedToken := none } = VResult.ok
      { inputValue := 2
        maximumInputValue := (calculateSlippageBounds 2).maximum
        outputValue := 1
        error := (buyFailedChecksSpec
          { selectedTokenSymbol := TokenSymbol.ETH
            reserveSOCKSETH := some 1, reserveSOCKSToken := some 2
            reserveSelectedTokenETH := none, reserveSelectedTokenToken := none
            balanceETH := some 0, balanceSOCKS := none, balanceSelectedToken := some 0
            allowanceSOCKS := none, allowanceSelectedToken := none }
          (calculateSlippageBounds 2).maximum).head? } ∧
    validateSell 1
      { selectedTokenSymbol := TokenSymbol.ETH
        reserveSOCKSETH := some 100, reserveSOCKSToken := some 2
        reserveSelectedTokenETH := none, reserveSelectedTokenToken := none
        balanceETH := some (10 ^ 16), balanceSOCKS := some 0, balanceSelectedToken := none
        allowanceSOCKS := some 7, allowanceSelectedToken := none } = VResult.ok
      { inputValue := 1
        outputValue := 33
        minimumOutputValue := (calculateSlippageBounds 33).minimum
        error := (sellFailedChecksSpec 1 (10 ^ 16) 0 7).head? } :=
  C6_exact_amounts_and_first_error 1 2 1 33 (10 ^ 16) 0 7 _ _
    (by decide) (by decide) (by decide) (by decide) (by decide)

/-- C10: the two validators treat absent context data asymmetrically.  A buy
with the gas balance, paying-asset balance and allowance all absent silently
skips those checks and returns an error-free quote; a sell whose route
resolves but with any of the gas balance, SOCKS balance or SOCKS allowance
absent crashes (unguarded dereference) instead of skipping the check. -/
theorem C10_absent_data_asymmetry (p v ps vs : Int) (ctx ctxs : Context)
    (hbuy : calculateAmount ctx.selectedTokenSymbol TokenSymbol.SOCKS p
        ctx.reserveSOCKSETH ctx.reserveSOCKSToken
        ctx.reserveSelectedTokenETH ctx.reserveSelectedTokenToken = some v)
    (h1 : ctx.balanceETH = none) (h2 : ctx.balanceSelectedToken = none)
    (h3 : ctx.allowanceSelectedToken = none)
    (hsell : calculateAmount TokenSymbol.SOCKS ctxs.selectedTokenSymbol ps
        ctxs.reserveSOCKSETH ctxs.reserveSOCKSToken
        ctxs.reserveSelectedTokenETH ctxs.reserveSelectedTokenToken = some vs)
    (habs : ctxs.balanceETH = none ∨ ctxs.balanceSOCKS = none ∨
      ctxs.allowanceSOCKS = none) :
    validateBuy p ctx = VResult.ok
      { inputValue := v
        maximumInputValue := (calculateSlippageBounds v).maximum
        outputValue := p
        error := none } ∧
    validateSell ps ctxs = VResult.crash := by
  constructor
  · simp only [validateBuy, hbuy, h1, h2, h3]
    split_ifs <;> rfl
  · rcases hA : ctxs.balanceETH with _ | bE <;>
    rcases hB : ctxs.balanceSOCKS with _ | bS <;>
    rcases hC : ctxs.allowanceSOCKS with _ | aS <;>
      simp_all [validateSell, hsell]

/-- C10 witness: a buy over present reserves with all three data absent
returns an error-free quote; a sell over present reserves with the gas
balance absent crashes. -/
theorem C10_witness :
    validateBuy 1
      { selectedTokenSymbol := TokenSymbol.ETH
        reserveSOCKSETH := some 1, reserveSOCKSToken := some 2
        reserveSelectedTokenETH := none, reserveSelectedTokenToken := none
        balanceETH := none, balanceSOCKS := none, balanceSelectedToken := none
        allowanceSOCKS := none, allowanceSelectedToken := none } = VResult.ok
      { inputValue := 2
        maximumInputValue := (calculateSlippageBounds 2).maximum
        outputValue := 1
        error := none } ∧
    validateSell 1
      { selectedTokenSymbol := TokenSymbol.ETH
        reserveSOCKSETH := some 100, reserveSOCKSToken := some 2
        reserveSelectedTokenETH := none, reserveSelectedTokenToken := none
        balanceETH := none, balanceSOCKS := some 5, balanceSelectedToken := none
        allowanceSOCKS := some 5, allowanceSelectedToken := none } = VResult.crash :=
  C10_absent_data_asymmetry 1 2 1 33 _ _
    (by decide) (by decide) (by decide) (by decide) (by decide) (Or.inl (by decide))

end AlvinStore
